import Mathlib

/-!
Shallow embedding of `src/main.py` (persistentqueue): a two-tier
buffering-and-dispatch loop with an in-memory bounded queue, a
SQLite-backed persistent queue, a weighted round-robin selector,
a rate gate and a retention pass.

Modelling conventions:
* Python exceptions are modelled by the `PyErr` error type inside
  `Except PyErr`; an operation that raises returns `.error e`.
* The SQLite table `logs(timestamp TEXT PRIMARY KEY, log TEXT)` is a list
  of `(key, payload)` rows kept in rowid (insertion) order, which is the
  order an unordered `SELECT ... LIMIT 1` full scan visits on a rowid
  table.  The key `str(time.time() * 1000)` is modelled as an abstract
  clock tick `Nat`: for present-day timestamps the decimal strings all
  have the same integer width, so TEXT comparison agrees with numeric
  comparison, and equality of ticks is exactly equality of the strings.
* Wall-clock instants (`datetime.now()`) are `Nat` microsecond counts;
  `timedelta.microseconds` of a nonnegative delta is the delta mod 10^6.
* Nondeterministic inputs of the loop body (the generated log line, the
  clock readings, the transport outcome) are explicit parameters.
-/

/-- Python exception classes raised by the modelled code paths. -/
inductive PyErr where
  | indexError
  | typeError
  | integrityError
  deriving DecidableEq, Repr

/-- `InMemoryQueue`: a Python list plus the configured bound (`maxSize` is a
Python `int`, hence `Int`). -/
structure InMemoryQueue where
  maxSize : Int
  queue : List String
  deriving DecidableEq, Repr

/-- `InMemoryQueue.__init__(maxSize)`. -/
def InMemoryQueue.init (maxSize : Int) : InMemoryQueue :=
  { maxSize := maxSize, queue := [] }

/-- `push`: append only when `len(queue) < maxSize`, otherwise do nothing. -/
def InMemoryQueue.push (s : InMemoryQueue) (item : String) : InMemoryQueue :=
  if (s.queue.length : Int) < s.maxSize then
    { s with queue := s.queue ++ [item] }
  else s

/-- `peek`: `queue[0]`; raises `IndexError` on an empty list. -/
def InMemoryQueue.peek (s : InMemoryQueue) : Except PyErr String :=
  match s.queue with
  | [] => .error .indexError
  | item :: _ => .ok item

/-- `pop`: Python `list.pop()` removes and returns the LAST element;
raises `IndexError` on an empty list. -/
def InMemoryQueue.pop (s : InMemoryQueue) : Except PyErr (InMemoryQueue × String) :=
  match s.queue.getLast? with
  | none => .error .indexError
  | some item => .ok ({ s with queue := s.queue.dropLast }, item)

/-- `size`: `len(queue)`. -/
def InMemoryQueue.size (s : InMemoryQueue) : Nat :=
  s.queue.length

/-- `PersistentQueue`: the SQLite table `logs`, as rows in rowid order. -/
structure PersistentQueue where
  rows : List (Nat × String)
  deriving DecidableEq, Repr

/-- `PersistentQueue.__init__`: `CREATE TABLE IF NOT EXISTS` on a fresh
database yields an empty table. -/
def PersistentQueue.init : PersistentQueue :=
  { rows := [] }

/-- `push`: computes `id = str(time.time() * 1000)` (the `key` parameter is
that clock reading) and runs `INSERT INTO logs VALUES (id, item)`.  The
`timestamp` column is the PRIMARY KEY, so inserting an already-present key
raises `sqlite3.IntegrityError`. -/
def PersistentQueue.push (s : PersistentQueue) (key : Nat) (item : String) :
    Except PyErr PersistentQueue :=
  if s.rows.any (fun r => r.1 == key) then .error .integrityError
  else .ok { rows := s.rows ++ [(key, item)] }

/-- `peek`: `SELECT timestamp, log FROM logs LIMIT 1` (no ORDER BY: first row
in rowid order), then `_, log = fetchone()`.  On an empty table `fetchone()`
returns `None` and unpacking it raises `TypeError`. -/
def PersistentQueue.peek (s : PersistentQueue) : Except PyErr String :=
  match s.rows with
  | [] => .error .typeError
  | (_, lg) :: _ => .ok lg

/-- `pop`: reads the first row `(timestamp, log)` as in `peek` (raising
`TypeError` when empty), runs `DELETE FROM logs WHERE timestamp = ?` — which
removes every row with that key from the table — and returns the payload. -/
def PersistentQueue.pop (s : PersistentQueue) : Except PyErr (PersistentQueue × String) :=
  match s.rows with
  | [] => .error .typeError
  | (k, lg) :: rest =>
      .ok ({ rows := ((k, lg) :: rest).filter (fun r => decide (r.1 ≠ k)) }, lg)

/-- `size`: `SELECT COUNT(log) FROM logs`. -/
def PersistentQueue.size (s : PersistentQueue) : Nat :=
  s.rows.length

/-- `__get_page_count`: runs `PRAGMA PAGE_COUNT` and returns
`int(self.__cur.fetchone())`.  `fetchone()` yields the whole result row — a
1-tuple such as `(2,)` — and Python's `int()` applied to a tuple raises
`TypeError` unconditionally, so this method raises on every call. -/
def PersistentQueue.get_page_count (s : PersistentQueue) : Except PyErr Int :=
  .error .typeError

/-- The size-limiting loop of `recycle`:
`while self.__get_page_count() > maxPageCount: self.pop()`.
Each check first evaluates `__get_page_count`, which raises, so the loop
raises before its first `pop`; the recursion is nevertheless spelled out
faithfully (it terminates because `pop` shrinks the table). -/
def PersistentQueue.recycleSizeLoop (s : PersistentQueue) (maxPageCount : Int) :
    Except PyErr PersistentQueue :=
  match s.get_page_count with
  | .error e => .error e
  | .ok pc =>
      if pc > maxPageCount then
        match h : s.pop with
        | .error e => .error e
        | .ok p => PersistentQueue.recycleSizeLoop p.1 maxPageCount
      else .ok s
termination_by s.rows.length
decreasing_by
  rcases p with ⟨s2, v⟩
  rcases s with ⟨rows⟩
  cases rows with
  | nil => simp [PersistentQueue.pop] at h
  | cons hd tl =>
      rcases hd with ⟨k, lg⟩
      simp only [PersistentQueue.pop, Except.ok.injEq, Prod.mk.injEq] at h
      rcases h with ⟨h1, _⟩
      have hfilter : s2.rows = tl.filter (fun r => decide (r.1 ≠ k)) := by
        rw [← h1]
        simp
      simp only [hfilter, List.length_cons]
      exact Nat.lt_succ_of_le (List.length_filter_le _ _)

/-- The age-limiting loop of `recycle`:
`while True:` run `SELECT timestamp FROM logs LIMIT 1`, bind the RAW
`fetchone()` result (a 1-tuple row, or `None` when the table is empty) to
`timestamp` without unpacking it, and call
`datetime.fromtimestamp(timestamp)`.  `fromtimestamp` applied to a tuple or
to `None` raises `TypeError`, so the loop raises on its first iteration in
every state and the age comparison after it (whose test is inverted relative
to its `# Fail fast` comment) is never reached. -/
def PersistentQueue.recycleAgeLoop (s : PersistentQueue) (now : Nat)
    (max_minutes : Int) : Except PyErr PersistentQueue :=
  .error .typeError

/-- `recycle(max_minutes, max_size_mb)`: computes `maxPageCount`, runs the
size-limiting loop, then the age-limiting loop (`now` models the
`datetime.now()` reading taken between the two loops). -/
def PersistentQueue.recycle (s : PersistentQueue) (now : Nat)
    (max_minutes max_size_mb : Int) : Except PyErr PersistentQueue :=
  let maxPageCount : Int := max_size_mb * 16
  match s.recycleSizeLoop maxPageCount with
  | .error e => .error e
  | .ok s1 => s1.recycleAgeLoop now max_minutes

/-- Module-level constants of `main.py`. -/
def BUFFER_SIZE : Int := 5000

def MAX_EPS : Int := 500

def IN_MEMORY_Q_WEIGHT : Nat := 1

def PERSISTENT_Q_WEIGHT : Nat := 1

def RETENTION_MINUTES : Int := 2 * 24 * 60

def MAX_DB_SIZE_MB : Int := 100

/-- `delayMs = 1000 / MAX_EPS` computed in `main` (exact here: 1000/500 = 2,
which is also exact in Python's binary floating point). -/
def delayMs : ℚ := 1000 / (MAX_EPS : ℚ)

/-- `is_time_up(expectedDelay, lastSent)`:
`diff = datetime.now() - lastSent; return diff.microseconds * 1000 >= expectedDelay`.
`diff.microseconds` is only the sub-second microsecond component of the
elapsed time, i.e. `(now - lastSent) % 10^6` for a nonnegative delta. -/
def is_time_up (expectedDelay : ℚ) (nowUs lastSentUs : Nat) : Bool :=
  decide ((((nowUs - lastSentUs) % 1000000 : Nat) : ℚ) * 1000 ≥ expectedDelay)

/-- Index of the first maximum of a list (lowest index wins ties). -/
def argmaxIdx : List Nat → Nat
  | [] => 0
  | x :: xs =>
      match xs with
      | [] => 0
      | _ :: _ =>
          let j := argmaxIdx xs
          if xs.getD j 0 > x then j + 1 else 0

/-- Modelled from the spec: `main` draws from `roundrobin.weighted([(q, 1), (pq, 1)])`,
a function of the external `roundrobin` library whose code is not part of
this repository.  Following the spec's deterministic weighted round-robin:
each source holds a credit counter; when every credit is zero the counters
are refilled to the configured weights; each draw picks the source with the
highest remaining credit (lowest index wins ties) and decrements its
credit.  `schedDraw` performs one draw: it returns the chosen source index
and the updated credits. -/
def schedDraw (weights credits : List Nat) : Nat × List Nat :=
  let c := if credits.all (fun w => w == 0) then weights else credits
  let i := argmaxIdx c
  (i, c.set i (c.getD i 0 - 1))

/-- The configured weights `[(q, IN_MEMORY_Q_WEIGHT), (pq, PERSISTENT_Q_WEIGHT)]`. -/
def schedWeights : List Nat := [IN_MEMORY_Q_WEIGHT, PERSISTENT_Q_WEIGHT]

/-- Credits held by the scheduler after `n` draws (source index 0 is the
in-memory queue, index 1 the persistent queue). -/
def credAt : Nat → List Nat
  | 0 => schedWeights
  | n + 1 => (schedDraw schedWeights (credAt n)).2

/-- Source index returned by the scheduler's `n`-th draw (0-based). -/
def drawAt (n : Nat) : Nat :=
  (schedDraw schedWeights (credAt n)).1

/-- Which buffer a dispatch tick drains from. -/
inductive Src where
  | fast
  | durable
  deriving DecidableEq, Repr

/-- State carried across iterations of `main`'s loop: the two queues, the
`lastSent` instant (µs) and how many scheduler draws have been taken (the
internal position of the `get_weighted` closure). -/
structure AgentState where
  q : InMemoryQueue
  pq : PersistentQueue
  lastSent : Nat
  draws : Nat
  deriving Repr

/-- Buffer selection (`main` lines 186-190): `if pq.size() == 0: buffer = q`
— chosen without consuming a scheduler draw — `else: buffer = get_weighted()`,
which consumes one draw.  Returns the source and the updated draw count. -/
def selectSource (pqSize draws : Nat) : Src × Nat :=
  if pqSize = 0 then (Src.fast, draws)
  else (if drawAt draws = 0 then Src.fast else Src.durable, draws + 1)

/-- End of a dispatch tick: `pq.recycle(RETENTION_MINUTES, MAX_DB_SIZE_MB)`.
An exception propagates out of `main` (the state accumulated so far is kept,
since the queue objects were already mutated). -/
def finishTick (now : Nat) (st : AgentState) : AgentState × Option PyErr :=
  match st.pq.recycle now RETENTION_MINUTES MAX_DB_SIZE_MB with
  | .error e => (st, some e)
  | .ok pq2 => ({ st with pq := pq2 }, none)

/-- The peek / send / pop-or-spill stage of a tick (`main` lines 192-202):
`next = buffer.peek()`; on send success `buffer.pop()`, on failure
`pq.push(next)`; then the retention pass.  `key` is the clock reading the
`pq.push` would stamp the row with. -/
def sendStage (st1 : AgentState) (src : Src) (sendOk : Bool) (key now : Nat) :
    AgentState × Option PyErr :=
  match (match src with
         | Src.fast => st1.q.peek
         | Src.durable => st1.pq.peek) with
  | .error e => (st1, some e)
  | .ok nextLog =>
      if sendOk then
        match src with
        | Src.fast =>
            match st1.q.pop with
            | .error e => (st1, some e)
            | .ok p => finishTick now { st1 with q := p.1 }
        | Src.durable =>
            match st1.pq.pop with
            | .error e => (st1, some e)
            | .ok p => finishTick now { st1 with pq := p.1 }
      else
        match st1.pq.push key nextLog with
        | .error e => (st1, some e)
        | .ok pq2 => finishTick now { st1 with pq := pq2 }

/-- One iteration of `main`'s loop: generate a log line (`log`), `q.push(log)`,
then, when `is_time_up` says the gate is open, select a buffer, attempt the
send (`sendOk` is the transport outcome) and run retention.  `now` is the
`datetime.now()` reading of the tick, `key` the clock reading used by a
spill-over `pq.push`.  The second component records an uncaught Python
exception (which ends `main`); `lastSent` is never written back. -/
def cycle (st : AgentState) (log : String) (now : Nat) (sendOk : Bool) (key : Nat) :
    AgentState × Option PyErr :=
  let q1 := st.q.push log
  if is_time_up delayMs now st.lastSent then
    let sel := selectSource st.pq.size st.draws
    sendStage { st with q := q1, draws := sel.2 } sel.1 sendOk key now
  else ({ st with q := q1 }, none)

/-- An operation a client can run against an `InMemoryQueue`. -/
inductive QOp where
  | push (item : String)
  | pop
  | peek
  deriving Repr

/-- Run one operation on the queue state; `pop` on an empty queue raises and
leaves the state unchanged. -/
def applyOp (s : InMemoryQueue) : QOp → InMemoryQueue
  | .push item => s.push item
  | .pop =>
      match s.pop with
      | .ok p => p.1
      | .error _ => s
  | .peek => s

/-- Run a sequence of operations, left to right. -/
def runOps (s : InMemoryQueue) : List QOp → InMemoryQueue
  | [] => s
  | op :: ops => runOps (applyOp s op) ops

/-- The size loop of `recycle` raises `TypeError` on its very first
page-count check. -/
theorem PersistentQueue.recycleSizeLoop_err (s : PersistentQueue) (maxPageCount : Int) :
    s.recycleSizeLoop maxPageCount = .error .typeError := by
  rw [PersistentQueue.recycleSizeLoop]
  rfl

/-- Hence `recycle` raises `TypeError` on every input, mutating nothing. -/
theorem PersistentQueue.recycle_err (s : PersistentQueue) (now : Nat)
    (max_minutes max_size_mb : Int) :
    s.recycle now max_minutes max_size_mb = .error .typeError := by
  simp [PersistentQueue.recycle, PersistentQueue.recycleSizeLoop_err]

theorem applyOp_maxSize (s : InMemoryQueue) (op : QOp) :
    (applyOp s op).maxSize = s.maxSize := by
  cases op with
  | push item =>
      simp only [applyOp, InMemoryQueue.push]
      split <;> rfl
  | pop =>
      simp only [applyOp, InMemoryQueue.pop]
      cases h : s.queue.getLast? <;> simp
  | peek => rfl

theorem applyOp_len_le (s : InMemoryQueue) (op : QOp)
    (hs : (s.queue.length : Int) ≤ s.maxSize) :
    ((applyOp s op).queue.length : Int) ≤ s.maxSize := by
  cases op with
  | push item =>
      simp only [applyOp, InMemoryQueue.push]
      split
      · rename_i hlt
        simp only [List.length_append, List.length_cons, List.length_nil]
        omega
      · exact hs
  | pop =>
      simp only [applyOp, InMemoryQueue.pop]
      cases h : s.queue.getLast? with
      | none => exact hs
      | some item =>
          simp only []
          calc ((s.queue.dropLast.length : Int)) ≤ (s.queue.length : Int) := by
                simp [List.length_dropLast]
            _ ≤ s.maxSize := hs
  | peek => exact hs

theorem runOps_len_le (ops : List QOp) (s : InMemoryQueue)
    (hs : (s.queue.length : Int) ≤ s.maxSize) :
    ((runOps s ops).queue.length : Int) ≤ s.maxSize := by
  induction ops generalizing s with
  | nil => exact hs
  | cons op ops ih =>
      have h1 := applyOp_len_le s op hs
      have h2 := ih (applyOp s op) (by rw [applyOp_maxSize]; exact h1)
      rwa [runOps, applyOp_maxSize s op] at *

theorem credAt_odd_even (n : Nat) :
    credAt (2 * n + 1) = [0, 1] ∧ credAt (2 * n + 2) = [0, 0] := by
  induction n with
  | zero => constructor <;> rfl
  | succ m ih =>
      have h1 : credAt (2 * (m + 1) + 1) = [0, 1] := by
        have : 2 * (m + 1) + 1 = (2 * m + 2) + 1 := by ring
        rw [this, credAt, ih.2]
        rfl
      refine ⟨h1, ?_⟩
      have : 2 * (m + 1) + 2 = (2 * (m + 1) + 1) + 1 := by ring
      rw [this, credAt, h1]
      rfl

/-- With the configured weights (1, 1) the scheduler alternates:
draw `n` selects source `n % 2`. -/
theorem drawAt_mod (n : Nat) : drawAt n = n % 2 := by
  rcases n with _ | m
  · rfl
  · rcases Nat.even_or_odd m with ⟨k, hk⟩ | ⟨k, hk⟩
    · have hn : m + 1 = 2 * k + 1 := by omega
      rw [hn, drawAt, (credAt_odd_even k).1]
      have : (2 * k + 1) % 2 = 1 := by omega
      rw [this]
      rfl
    · have hn : m + 1 = 2 * k + 2 := by omega
      rw [hn, drawAt, (credAt_odd_even k).2]
      have : (2 * k + 2) % 2 = 0 := by omega
      rw [this]
      rfl

/-- The gate's boolean unfolded to the rational comparison it decides. -/
theorem is_time_up_eq_true_iff (expectedDelay : ℚ) (nowUs lastSentUs : Nat) :
    is_time_up expectedDelay nowUs lastSentUs = true ↔
      (((nowUs - lastSentUs) % 1000000 : Nat) : ℚ) * 1000 ≥ expectedDelay := by
  simp [is_time_up]

/-- Concrete gate evaluation used below: 500 µs after `lastSent` (only half of
the 2 ms target interval) the gate already reports ready, because
`500 * 1000 ≥ 2`. -/
theorem gate_open_500 : is_time_up delayMs 500 0 = true := by
  rw [is_time_up_eq_true_iff]
  norm_num [delayMs, MAX_EPS]

/-- Concrete gate evaluation used below: exactly 1 s = 1000 ms after
`lastSent` the gate reports NOT ready, because the sub-second microsecond
component of the delta is 0. -/
theorem gate_closed_1s : is_time_up delayMs 1000000 0 = false := by
  have h : ¬ ((((1000000 - 0) % 1000000 : Nat) : ℚ) * 1000 ≥ delayMs) := by
    norm_num [delayMs, MAX_EPS]
  simpa [is_time_up] using h

/-- C1: the claim states FIFO discipline for both buffer types — pushes
`e1..en` followed by pops return `e1..en` in order, and `pop()` removes the
event last returned by `peek()`.  The code violates this for the in-memory
buffer: after pushing "a" then "b", `peek()` returns "a" (the head,
`queue[0]`) but `pop()` (Python `list.pop()`) removes and returns "b" (the
tail), so the first pop is `e2`, not `e1`, and pop does not remove the
element peek returned. -/
theorem C1_fifo_code_bug :
    (((InMemoryQueue.init 5000).push "a").push "b").peek = Except.ok "a" ∧
    (((InMemoryQueue.init 5000).push "a").push "b").pop =
      Except.ok ({ maxSize := 5000, queue := ["a"] }, "b") :=
  ⟨rfl, rfl⟩

/-- C4: the claim states `recycle(maxAge, maxSize)` first pops oldest rows
while the footprint exceeds `maxSize`, then pops rows older than `maxAge`,
and is a no-op on an empty buffer.  The code instead raises `TypeError` on
every call — empty or not — because `__get_page_count` applies `int()` to
the tuple returned by `fetchone()`; the age loop (whose comparison is also
inverted: it pops rows *within* the age bound and stops at the first row
*exceeding* it, judging age by the sub-day `diff.seconds` component) is
never even reached. -/
theorem C4_recycle_code_bug :
    PersistentQueue.recycle { rows := [(1000, "a")] } 2000 RETENTION_MINUTES
        MAX_DB_SIZE_MB = .error .typeError ∧
    PersistentQueue.recycle PersistentQueue.init 2000 RETENTION_MINUTES
        MAX_DB_SIZE_MB = .error .typeError :=
  ⟨PersistentQueue.recycle_err _ _ _ _, PersistentQueue.recycle_err _ _ _ _⟩

/-- C5: the claim states DurableBuffer sequence keys are strictly increasing
across any sequence of pushes, including pushes within the same clock tick.
The code derives the key from the bare clock reading, so two pushes in the
same tick compute the same key: the second `INSERT` then violates the
PRIMARY KEY constraint and raises `sqlite3.IntegrityError` — the keys
neither increase nor even commit. -/
theorem C5_key_collision_code_bug :
    PersistentQueue.init.push 1000 "a" = Except.ok { rows := [(1000, "a")] } ∧
    ({ rows := [(1000, "a")] } : PersistentQueue).push 1000 "b" =
      Except.error PyErr.integrityError :=
  ⟨rfl, rfl⟩

/-- C7 counterexample: the claim states that peek/pop on an empty buffer
deliver `EmptyBuffer` as an ordinary recoverable return value, never through
exception-based control flow.  At the concrete empty buffers the outcomes
are Python exceptions: `queue[0]` raises `IndexError`, and unpacking
`fetchone()`'s `None` raises `TypeError`. -/
theorem C7_counterexample :
    (InMemoryQueue.init BUFFER_SIZE).peek = Except.error PyErr.indexError ∧
    PersistentQueue.init.peek = Except.error PyErr.typeError :=
  ⟨rfl, rfl⟩

/-- C7 amended: for both buffer types, `peek()` and `pop()` on an empty
buffer raise Python exceptions — `IndexError` for the in-memory buffer and
`TypeError` for the durable one — rather than returning a recoverable
`EmptyBuffer` value; uncaught, they terminate `main`. -/
theorem C7_empty_raises (s : InMemoryQueue) (t : PersistentQueue)
    (hs : s.queue = []) (ht : t.rows = []) :
    s.peek = .error .indexError ∧ s.pop = .error .indexError ∧
    t.peek = .error .typeError ∧ t.pop = .error .typeError := by
  refine ⟨?_, ?_, ?_, ?_⟩ <;>
    simp [InMemoryQueue.peek, InMemoryQueue.pop, PersistentQueue.peek,
      PersistentQueue.pop, hs, ht]

/-- C7 witness: the amended statement at the two freshly constructed empty
buffers. -/
theorem C7_empty_raises_witness :
    (InMemoryQueue.init 2).peek = .error .indexError ∧
    (InMemoryQueue.init 2).pop = .error .indexError ∧
    PersistentQueue.init.peek = .error .typeError ∧
    PersistentQueue.init.pop = .error .typeError :=
  C7_empty_raises (InMemoryQueue.init 2) PersistentQueue.init rfl rfl

/-- C8 counterexample: the claim states that a push onto a full buffer is
dropped *and the drop is counted*.  Pushing onto a full buffer returns a
state identical to the old one in every component — the `InMemoryQueue`
state holds no drop counter and nothing else changes — so no drop is
counted anywhere. -/
theorem C8_counterexample :
    InMemoryQueue.push { maxSize := 1, queue := ["a"] } "b" =
      { maxSize := 1, queue := ["a"] } :=
  rfl

/-- C8 amended: for every sequence of operations from a freshly constructed
queue with capacity `qcap ≥ 0`, `size()` never exceeds `qcap`; and a push
when `size` equals capacity is a non-blocking no-op that drops the event
silently (no drop count), leaving the whole state unchanged. -/
theorem C8_capacity_invariant (qcap : Int) (ops : List QOp)
    (s : InMemoryQueue) (item : String)
    (hcap : 0 ≤ qcap) (hfull : (s.queue.length : Int) = s.maxSize) :
    ((runOps (InMemoryQueue.init qcap) ops).size : Int) ≤ qcap ∧
    s.push item = s := by
  constructor
  · exact runOps_len_le ops _ (by simpa [InMemoryQueue.init] using hcap)
  · simp [InMemoryQueue.push, hfull]

/-- C8 witness: capacity 2, pushes "a","b","c" then a pop stay within the
bound, and a push onto the full one-slot queue is the identity. -/
theorem C8_capacity_invariant_witness :
    ((runOps (InMemoryQueue.init 2)
        [QOp.push "a", QOp.push "b", QOp.push "c", QOp.pop]).size : Int) ≤ 2 ∧
    InMemoryQueue.push { maxSize := 1, queue := ["a"] } "b" =
      { maxSize := 1, queue := ["a"] } :=
  C8_capacity_invariant 2 [QOp.push "a", QOp.push "b", QOp.push "c", QOp.pop]
    { maxSize := 1, queue := ["a"] } "b" (by decide) (by decide)

/-- Every dispatch tick ends in the retention pass, which raises, so
`finishTick` always reports the `TypeError` and keeps the state mutated so
far (the committed queue contents survive the exception). -/
theorem finishTick_eq (now : Nat) (st : AgentState) :
    finishTick now st = (st, some PyErr.typeError) := by
  simp [finishTick, PersistentQueue.recycle_err]

/-- C2: the claim states the gate compares the full elapsed wall-clock
duration against `1000/targetRatePerSecond` ms and that `lastSent` is
updated on success.  The code compares only `diff.microseconds`, the
sub-second component: a full second after `lastSent` (elapsed 1000 ms ≥ 2
ms) the gate reports NOT ready, while 500 µs after `lastSent` (elapsed 0.5
ms < 2 ms) it reports ready; and a tick that successfully dispatches leaves
`lastSent` untouched (the loop never writes it). -/
theorem C2_rate_gate_code_bug :
    is_time_up delayMs 1000000 0 = false ∧
    is_time_up delayMs 500 0 = true ∧
    (cycle { q := InMemoryQueue.init BUFFER_SIZE, pq := PersistentQueue.init,
             lastSent := 0, draws := 0 } "x" 500 true 0).1.lastSent = 0 := by
  refine ⟨gate_closed_1s, gate_open_500, ?_⟩
  simp [cycle, gate_open_500, selectSource, sendStage, finishTick_eq,
    InMemoryQueue.push, InMemoryQueue.peek, InMemoryQueue.pop,
    PersistentQueue.size, PersistentQueue.init, InMemoryQueue.init, BUFFER_SIZE]

/-- C3 counterexample: the claim states that when the transport fails on a
tick whose source is the FastBuffer, the event has MOVED into the
DurableBuffer and the FastBuffer no longer holds it.  At the concrete tick
below (fast buffer holding "a", durable buffer empty, transport failing)
the dispatched event "a" is still the head of the fast buffer AND a copy
sits in the durable buffer — two copies, not one. -/
theorem C3_counterexample :
    (cycle { q := (InMemoryQueue.init 2).push "a", pq := PersistentQueue.init,
             lastSent := 0, draws := 0 } "b" 500 false 7).1.q.queue = ["a", "b"] ∧
    (cycle { q := (InMemoryQueue.init 2).push "a", pq := PersistentQueue.init,
             lastSent := 0, draws := 0 } "b" 500 false 7).1.pq.rows = [(7, "a")] := by
  constructor <;>
    simp [cycle, gate_open_500, selectSource, sendStage, finishTick_eq,
      InMemoryQueue.push, InMemoryQueue.peek, PersistentQueue.push,
      PersistentQueue.size, PersistentQueue.init, InMemoryQueue.init]

/-- C3 amended: when the transport send fails on a dispatch tick whose
selected source is the FastBuffer (durable tier empty here, so the fast
buffer is selected), the dispatched head event is COPIED into the
DurableBuffer while the FastBuffer still holds it at its head — after the
tick two copies of the event exist across the two buffers. -/
theorem C3_spillover_duplicates (st : AgentState) (log : String) (now key : Nat)
    (v : String) (rest : List String)
    (hgate : is_time_up delayMs now st.lastSent = true)
    (hpq : st.pq.rows = [])
    (hq : st.q.queue = v :: rest) :
    (cycle st log now false key).1.pq.rows = [(key, v)] ∧
    (cycle st log now false key).1.q.queue.head? = some v := by
  have hsize : st.pq.size = 0 := by simp [PersistentQueue.size, hpq]
  have hsel : selectSource st.pq.size st.draws = (Src.fast, st.draws) := by
    simp [selectSource, hsize]
  obtain ⟨tl, htl⟩ : ∃ tl, (st.q.push log).queue = v :: tl := by
    unfold InMemoryQueue.push
    split
    · exact ⟨rest ++ [log], by simp [hq]⟩
    · exact ⟨rest, hq⟩
  have hpeek : (st.q.push log).peek = .ok v := by
    simp [InMemoryQueue.peek, htl]
  have hpush : st.pq.push key v = .ok { rows := [(key, v)] } := by
    simp [PersistentQueue.push, hpq]
  simp [cycle, hgate, hsel, sendStage, hpeek, hpush, finishTick_eq, htl]

/-- C3 witness: the amended statement at the concrete failing tick. -/
theorem C3_spillover_duplicates_witness :
    (cycle { q := { maxSize := 2, queue := ["a"] }, pq := PersistentQueue.init,
             lastSent := 0, draws := 0 } "b" 500 false 7).1.pq.rows = [(7, "a")] ∧
    (cycle { q := { maxSize := 2, queue := ["a"] }, pq := PersistentQueue.init,
             lastSent := 0, draws := 0 } "b" 500 false 7).1.q.queue.head? = some "a" :=
  C3_spillover_duplicates
    { q := { maxSize := 2, queue := ["a"] }, pq := PersistentQueue.init,
      lastSent := 0, draws := 0 } "b" 500 7 "a" [] gate_open_500 rfl rfl

/-- C6: on a non-empty DurableBuffer whose rows are in strictly increasing
key order (the invariant any monotone sequence of successful pushes
maintains, since rows are appended in insertion order), the first row
`(k, v)` holds the minimum key; `peek()` returns its payload `v`, and
`pop()` deletes exactly that row — the result table is the remaining rows,
nothing else removed — and returns `v`. -/
theorem C6_minkey_peek_pop (s : PersistentQueue) (k : Nat) (v : String)
    (rest : List (Nat × String))
    (hrows : s.rows = (k, v) :: rest)
    (hsorted : s.rows.Pairwise (fun a b => a.1 < b.1)) :
    s.rows.all (fun r => decide (k ≤ r.1)) = true ∧
    s.peek = .ok v ∧
    s.pop = .ok ({ rows := rest }, v) := by
  have hlt : ∀ r ∈ rest, k < r.1 := by
    rw [hrows] at hsorted
    exact (List.pairwise_cons.mp hsorted).1
  refine ⟨?_, ?_, ?_⟩
  · rw [hrows]
    simp only [List.all_cons, List.all_eq_true, Bool.and_eq_true, decide_eq_true_eq]
    exact ⟨le_refl k, fun r hr => le_of_lt (hlt r hr)⟩
  · simp [PersistentQueue.peek, hrows]
  · have hne : rest.filter (fun r => decide (r.1 ≠ k)) = rest := by
      rw [List.filter_eq_self]
      intro r hr
      simpa using Nat.ne_of_gt (hlt r hr)
    simp only [PersistentQueue.pop, hrows]
    simp [hne]
    intro a b hr
    exact (hlt (a, b) hr).ne'

/-- C6 witness: the statement at the concrete two-row sorted table. -/
theorem C6_minkey_peek_pop_witness :
    ({ rows := [(1, "x"), (2, "y")] } : PersistentQueue).rows.all
        (fun r => decide (1 ≤ r.1)) = true ∧
    ({ rows := [(1, "x"), (2, "y")] } : PersistentQueue).peek = .ok "x" ∧
    ({ rows := [(1, "x"), (2, "y")] } : PersistentQueue).pop =
      .ok ({ rows := [(2, "y")] }, "x") :=
  C6_minkey_peek_pop { rows := [(1, "x"), (2, "y")] } 1 "x" [(2, "y")] rfl
    (by simp [List.pairwise_cons])

/-- Over any window of two consecutive draws the (1,1)-weighted scheduler
selects each source exactly once. -/
theorem draw_window (n : Nat) :
    ((List.range 2).map (fun i => drawAt (n + i))).count 0 = 1 ∧
    ((List.range 2).map (fun i => drawAt (n + i))).count 1 = 1 := by
  have hr : List.range 2 = [0, 1] := rfl
  have h0 := drawAt_mod n
  have h1 := drawAt_mod (n + 1)
  rcases Nat.mod_two_eq_zero_or_one n with h | h
  · have h2 : (n + 1) % 2 = 1 := by omega
    rw [h] at h0
    rw [h2] at h1
    simp [hr, h0, h1]
  · have h2 : (n + 1) % 2 = 0 := by omega
    rw [h] at h0
    rw [h2] at h1
    simp [hr, h0, h1]

/-- C9: at a Selecting step with an empty DurableBuffer the FastBuffer is
selected (and no scheduler draw is consumed); otherwise selection follows
the deterministic weighted round robin, and over any window of
`IN_MEMORY_Q_WEIGHT + PERSISTENT_Q_WEIGHT = 2` consecutive scheduler draws
each source is selected exactly its weight's number of times (source index
0 is the fast buffer, 1 the durable one). -/
theorem C9_selection_policy (pqSize draws n : Nat) (hpq : pqSize = 0) :
    selectSource pqSize draws = (Src.fast, draws) ∧
    ((List.range (IN_MEMORY_Q_WEIGHT + PERSISTENT_Q_WEIGHT)).map
        (fun i => drawAt (n + i))).count 0 = IN_MEMORY_Q_WEIGHT ∧
    ((List.range (IN_MEMORY_Q_WEIGHT + PERSISTENT_Q_WEIGHT)).map
        (fun i => drawAt (n + i))).count 1 = PERSISTENT_Q_WEIGHT := by
  refine ⟨by simp [selectSource, hpq], ?_, ?_⟩
  · exact (draw_window n).1
  · exact (draw_window n).2

/-- C9 witness: the statement at a concrete empty-durable selection and a
concrete window start. -/
theorem C9_selection_policy_witness :
    selectSource 0 3 = (Src.fast, 3) ∧
    ((List.range (IN_MEMORY_Q_WEIGHT + PERSISTENT_Q_WEIGHT)).map
        (fun i => drawAt (5 + i))).count 0 = IN_MEMORY_Q_WEIGHT ∧
    ((List.range (IN_MEMORY_Q_WEIGHT + PERSISTENT_Q_WEIGHT)).map
        (fun i => drawAt (5 + i))).count 1 = PERSISTENT_Q_WEIGHT :=
  C9_selection_policy 0 3 5 rfl

/-- C10: on a dispatch tick whose selected source is the DurableBuffer
(non-empty durable tier, scheduler draw picking source 1) and whose
transport send fails, the loop pushes the peeked payload back into the
DurableBuffer under a fresh key without popping the peeked row: afterwards
the table is the old rows plus the new copy appended, `size()` grew by one,
and a payload that occurred once now occupies exactly two rows. -/
theorem C10_durable_fail_duplicate (st : AgentState) (log : String)
    (now key k0 : Nat) (v : String) (rest : List (Nat × String))
    (hgate : is_time_up delayMs now st.lastSent = true)
    (hrows : st.pq.rows = (k0, v) :: rest)
    (hdraw : drawAt st.draws ≠ 0)
    (hfresh : st.pq.rows.all (fun r => decide (r.1 ≠ key)) = true)
    (honce : st.pq.rows.countP (fun r => decide (r.2 = v)) = 1) :
    (cycle st log now false key).1.pq.rows = st.pq.rows ++ [(key, v)] ∧
    (cycle st log now false key).1.pq.size = st.pq.size + 1 ∧
    (cycle st log now false key).1.pq.rows.countP
      (fun r => decide (r.2 = v)) = 2 := by
  have hsize : st.pq.size ≠ 0 := by simp [PersistentQueue.size, hrows]
  have hsel : selectSource st.pq.size st.draws = (Src.durable, st.draws + 1) := by
    simp [selectSource, hsize, hdraw]
  have hpeek : st.pq.peek = .ok v := by
    simp [PersistentQueue.peek, hrows]
  have hfresh2 : ∀ r ∈ st.pq.rows, r.1 ≠ key := by
    simpa using hfresh
  have hpush : st.pq.push key v = .ok { rows := st.pq.rows ++ [(key, v)] } := by
    have : st.pq.rows.any (fun r => r.1 == key) = false := by
      simp only [List.any_eq_false]
      intro r hr
      simpa using hfresh2 r hr
    simp [PersistentQueue.push, this]
  have hmain : (cycle st log now false key).1.pq.rows = st.pq.rows ++ [(key, v)] := by
    simp [cycle, hgate, hsel, sendStage, hpeek, hpush, finishTick_eq]
  refine ⟨hmain, ?_, ?_⟩
  · simp [PersistentQueue.size, hmain]
  · rw [hmain, List.countP_append, honce]
    simp

/-- C10 witness: the statement at a concrete failing durable-sourced tick. -/
theorem C10_durable_fail_duplicate_witness :
    (cycle { q := InMemoryQueue.init 2, pq := { rows := [(5, "x")] },
             lastSent := 0, draws := 1 } "b" 500 false 9).1.pq.rows =
      [(5, "x")] ++ [(9, "x")] ∧
    (cycle { q := InMemoryQueue.init 2, pq := { rows := [(5, "x")] },
             lastSent := 0, draws := 1 } "b" 500 false 9).1.pq.size =
      ({ rows := [(5, "x")] } : PersistentQueue).size + 1 ∧
    (cycle { q := InMemoryQueue.init 2, pq := { rows := [(5, "x")] },
             lastSent := 0, draws := 1 } "b" 500 false 9).1.pq.rows.countP
      (fun r => decide (r.2 = "x")) = 2 :=
  C10_durable_fail_duplicate
    { q := InMemoryQueue.init 2, pq := { rows := [(5, "x")] },
      lastSent := 0, draws := 1 } "b" 500 9 5 "x" [] gate_open_500 rfl
    (by decide) (by decide) (by decide)
